import Mathlib

/-!
Verification of `src/mempool_monitor.py` against its specification.

The Python program is shallowly embedded below:

* JSON values decoded by `json.loads` (and Python scalars) become `JValue`,
  a mutual inductive so that all functions over it are structural and
  kernel-computable.  Python numbers (JSON ints and floats) are modelled as
  exact fractions `PyNum`; `int`/`float` are conflated, which is faithful
  for every comparison the program performs.
* Python exceptions become `Except PyError _`; each `PyError` constructor
  names the Python exception class it stands for.
* Side effects that matter to the claims (log lines, outbound HTTP calls,
  frames written to the socket) are reified as values (`Effect`, lists of
  sent messages) returned by the embedded functions.
* The socket is modelled as the list of bytes (`Nat` < 256) it will yield,
  and the HTTP transport as an oracle `Option Nat` (the status code, or
  `none` for a connection/timeout error raised by `urllib.request.urlopen`).
-/

/-- A Python number: an exact fraction (not normalised; `den ≠ 0` holds for
every value the embedding constructs).  JSON integers have `den = 1`. -/
structure PyNum where
  num : Int
  den : Nat
  deriving DecidableEq

def PyNum.ofInt (n : Int) : PyNum := ⟨n, 1⟩

def PyNum.blt (a b : PyNum) : Bool := a.num * b.den < b.num * a.den

def PyNum.ble (a b : PyNum) : Bool := a.num * b.den ≤ b.num * a.den

def PyNum.beq (a b : PyNum) : Bool := a.num * b.den = b.num * a.den

mutual
/-- A decoded JSON value / Python object.  `null` is Python `None`; it is also
what `dict.get` returns for a missing key, exactly as in Python where JSON
`null` decodes to `None`. -/
inductive JValue where
  | null
  | bool (b : Bool)
  | num (q : PyNum)
  | str (s : String)
  | arr (items : JList)
  | obj (fields : JFields)
  deriving DecidableEq

/-- The elements of a JSON array (a Python `list`). -/
inductive JList where
  | nil
  | cons (head : JValue) (tail : JList)
  deriving DecidableEq

/-- The key/value pairs of a JSON object (a Python `dict`), in insertion
order, as `json.loads` produces them. -/
inductive JFields where
  | nil
  | cons (key : String) (val : JValue) (tail : JFields)
  deriving DecidableEq
end

def JList.ofList : List JValue → JList
  | [] => .nil
  | v :: t => .cons v (JList.ofList t)

def JFields.ofList : List (String × JValue) → JFields
  | [] => .nil
  | (k, v) :: t => .cons k v (JFields.ofList t)

/-- `dict.get(key)`: first binding of `key`, `none` when absent. -/
def lookupField : JFields → String → Option JValue
  | .nil, _ => none
  | .cons k v t, key => if k = key then some v else lookupField t key

/-- Python truthiness of a decoded JSON value (`bool(v)`). -/
def truthy : JValue → Bool
  | .null => false
  | .bool b => b
  | .num q => q.num ≠ 0
  | .str s => s ≠ ""
  | .arr .nil => false
  | .arr (.cons _ _) => true
  | .obj .nil => false
  | .obj (.cons _ _ _) => true

/-- Decimal digits of `n`, most significant first (`fuel ≥ 1` suffices since
`n < 10^fuel` whenever `fuel > n`). -/
def natDigits (fuel n : Nat) (acc : List Char) : List Char :=
  match fuel with
  | 0 => acc
  | f + 1 =>
    let c := Char.ofNat (48 + n % 10)
    if n < 10 then c :: acc else natDigits f (n / 10) (c :: acc)

def natStr (n : Nat) : String := String.mk (natDigits (n + 1) n [])

def intStr (i : Int) : String :=
  if i < 0 then "-" ++ natStr i.natAbs else natStr i.natAbs

/-- Python display of a number.  Integral values print as Python ints do;
non-integral values are shown as a fraction (Python would print a decimal
float — no claim inspects the string form of a non-integral number, and the
program only ever builds such strings in `str(value)` inside the `contains`
operator). -/
def numStr (q : PyNum) : String :=
  if q.den = 1 then intStr q.num
  else intStr q.num ++ "/" ++ natStr q.den

mutual
/-- Python `repr` of a decoded JSON value, used by `str` for elements inside
containers (`str(['a']) == "['a']"`). -/
def pyRepr : JValue → String
  | .null => "None"
  | .bool true => "True"
  | .bool false => "False"
  | .num q => numStr q
  | .str s => "\x27" ++ s ++ "\x27"
  | .arr xs => "[" ++ pyReprList xs ++ "]"
  | .obj fs => "\x7b" ++ pyReprFields fs ++ "\x7d"

def pyReprList : JList → String
  | .nil => ""
  | .cons v .nil => pyRepr v
  | .cons v (.cons w t) => pyRepr v ++ ", " ++ pyReprList (.cons w t)

def pyReprFields : JFields → String
  | .nil => ""
  | .cons k v .nil => "\x27" ++ k ++ "\x27: " ++ pyRepr v
  | .cons k v (.cons k2 v2 t) =>
      "\x27" ++ k ++ "\x27: " ++ pyRepr v ++ ", " ++ pyReprFields (.cons k2 v2 t)
end

/-- Python `str` of a decoded JSON value (`str` of a string is itself, all
other values print as their `repr`). -/
def pyStr : JValue → String
  | .str s => s
  | v => pyRepr v

mutual
/-- Python `==` on decoded JSON values: `True == 1`, `1 == 1.0`, structural
on containers.  (Python compares dicts irrespective of key order; objects in
this development are compared in insertion order, which agrees with Python on
every comparison the program performs — no claim compares two dicts.) -/
def pyEq : JValue → JValue → Bool
  | .null, .null => true
  | .bool a, .bool b => a = b
  | .bool a, .num q => PyNum.beq (PyNum.ofInt (if a then 1 else 0)) q
  | .num q, .bool a => PyNum.beq q (PyNum.ofInt (if a then 1 else 0))
  | .num a, .num b => PyNum.beq a b
  | .str a, .str b => a = b
  | .arr xs, .arr ys => pyEqList xs ys
  | .obj fs, .obj gs => pyEqFields fs gs
  | _, _ => false

def pyEqList : JList → JList → Bool
  | .nil, .nil => true
  | .cons v t, .cons w u => pyEq v w && pyEqList t u
  | _, _ => false

def pyEqFields : JFields → JFields → Bool
  | .nil, .nil => true
  | .cons k v t, .cons k2 v2 u => k = k2 && pyEq v v2 && pyEqFields t u
  | _, _ => false
end

/-- The Python exception classes the program can raise. -/
inductive PyError where
  /-- `ImportError`: importing a name a module does not define. -/
  | importError
  /-- `Exception("WebSocket handshake failed: ...")` (line 102). -/
  | handshakeError
  /-- `Exception("Not connected")` (lines 108 and 125). -/
  | notConnectedError
  /-- `struct.error`: `struct.unpack` given too few bytes. -/
  | structError
  /-- `TypeError` (e.g. `float(None)`, `5 in "abc"`). -/
  | typeError
  /-- `ValueError` (e.g. `float("abc")`). -/
  | valueError
  /-- `AttributeError` (e.g. `datetime.now` on the `datetime` module). -/
  | attributeError
  deriving DecidableEq

instance {e a : Type} [DecidableEq e] [DecidableEq a] : DecidableEq (Except e a) :=
  fun x y =>
    match x, y with
    | .ok v, .ok w =>
      if h : v = w then isTrue (by rw [h]) else isFalse (fun hh => h (Except.ok.inj hh))
    | .error v, .error w =>
      if h : v = w then isTrue (by rw [h]) else isFalse (fun hh => h (Except.error.inj hh))
    | .ok _, .error _ => isFalse (fun hh => Except.noConfusion hh)
    | .error _, .ok _ => isFalse (fun hh => Except.noConfusion hh)

/-- Python `"....".split(".")` on `List Char` input: splits on every dot,
keeping empty pieces (`"a.".split(".") == ["a", ""]`). -/
def splitDotAux : List Char → List Char → List String
  | [], acc => [String.mk acc.reverse]
  | c :: rest, acc =>
    if c = '.' then String.mk acc.reverse :: splitDotAux rest []
    else splitDotAux rest (c :: acc)

/-- `path.split(".")` from `MempoolMonitor.get_nested` (line 193). -/
def splitDot (s : String) : List String := splitDotAux s.toList []

/-- The loop body of `get_nested` (lines 194-200): descend one key at a time;
`if val and isinstance(val, dict)` demands a TRUTHY dict (an empty dict is
falsy), otherwise the function returns `None` immediately. -/
def getNestedGo : JValue → List String → JValue
  | val, [] => val
  | val, key :: keys =>
    if truthy val then
      match val with
      | .obj fs =>
          getNestedGo (match lookupField fs key with
                       | some v => v
                       | none => .null) keys
      | _ => .null
    else .null

/-- `MempoolMonitor.get_nested` (lines 190-200): dotted-path lookup;
an empty path returns the whole object (`if not path: return obj`). -/
def get_nested (obj : JValue) (path : String) : JValue :=
  if path = "" then obj else getNestedGo obj (splitDot path)

def digitsVal (l : List Char) : Nat :=
  l.foldl (fun a c => a * 10 + (c.toNat - 48)) 0

/-- Python `float(s)` on a string: optional surrounding spaces, optional
sign, decimal digits with an optional fractional part (`"5."`, `".5"` are
accepted, `"."`, `""`, `"abc"` raise `ValueError`).  Exponent, `inf` and
`nan` forms are not modelled; the program never receives them from the
configurations considered here. -/
def parseFloatStr (s : String) : Except PyError PyNum :=
  let cs := s.toList.dropWhile (fun c => c = ' ')
  let cs := (cs.reverse.dropWhile (fun c => c = ' ')).reverse
  let signed : Bool × List Char :=
    match cs with
    | '-' :: r => (true, r)
    | '+' :: r => (false, r)
    | r => (false, r)
  let intDigits := signed.2.takeWhile Char.isDigit
  let rest := signed.2.dropWhile Char.isDigit
  match rest with
  | [] =>
    if intDigits.isEmpty then .error .valueError
    else
      let v : Int := Int.ofNat (digitsVal intDigits)
      .ok ⟨if signed.1 then -v else v, 1⟩
  | '.' :: r2 =>
    let fracDigits := r2.takeWhile Char.isDigit
    let r3 := r2.dropWhile Char.isDigit
    if r3.isEmpty then
      if intDigits.isEmpty && fracDigits.isEmpty then .error .valueError
      else
        let scale := 10 ^ fracDigits.length
        let v : Int := Int.ofNat (digitsVal intDigits * scale + digitsVal fracDigits)
        .ok ⟨if signed.1 then -v else v, scale⟩
    else .error .valueError
  | _ => .error .valueError

/-- Python `float(v)` on a decoded JSON value: numbers pass through, bools
become 0/1, strings are parsed, everything else raises (`TypeError`, or
`ValueError` for an unparsable string). -/
def toFloat : JValue → Except PyError PyNum
  | .num q => .ok q
  | .bool b => .ok (PyNum.ofInt (if b then 1 else 0))
  | .str s => parseFloatStr s
  | .null => .error .typeError
  | .arr _ => .error .typeError
  | .obj _ => .error .typeError

/-- `float(value) if value else 0`: the left operand of each numeric
comparison in `evaluate_rule` (lines 216-222) — a FALSY value (absent, but
also `0`, `""`, `False`, `[]`, `{}`) short-circuits to `0` before `float` is
ever applied. -/
def leftFloat (value : JValue) : Except PyError PyNum :=
  if truthy value then toFloat value else .ok (PyNum.ofInt 0)

/-- Python substring test `needle in hay` restricted to `needle` being a
prefix at the current position. -/
def charsBeginWith : List Char → List Char → Bool
  | [], _ => true
  | _ :: _, [] => false
  | a :: as, b :: bs => a = b && charsBeginWith as bs

/-- Python `needle in hay` on strings (`"" in s` is `True`). -/
def strInAux : List Char → List Char → Bool
  | n, [] => n.isEmpty
  | n, c :: t => charsBeginWith n (c :: t) || strInAux n t

/-- Python `needle in hay` for strings. -/
def strIn (needle hay : String) : Bool := strInAux needle.toList hay.toList

/-- One entry of the `"triggers"` list of the configuration.  Fields carry
the `rule.get(...)` defaults the program uses: a missing `"field"` reads as
`""`, a missing `"operator"` as `"=="`, a missing `"value"` as `None`;
`"name"`, `"event"` and `"webhook"` read as `None` when missing. -/
structure Rule where
  name : Option String := none
  event : Option String := none
  field : String := ""
  operator : String := "=="
  value : JValue := .null
  webhook : Option String := none

/-- `MempoolMonitor.evaluate_rule` (lines 202-224).  Pure except that Python
raises out of the numeric branches when `float` cannot coerce (modelled by
`Except`), and out of `contains` when the target is not a string. -/
def evaluate_rule (rule : Rule) (event_data : JValue) : Except PyError Bool :=
  let value := get_nested event_data rule.field
  let op := rule.operator
  let target := rule.value
  if op = "exists" then
    -- `value is not None`
    .ok (match value with | .null => false | _ => true)
  else if op = "contains" then
    -- `target in (str(value) if value else "")`; `x in <str>` demands a
    -- string left operand, otherwise Python raises TypeError
    match target with
    | .str t => .ok (strIn t (if truthy value then pyStr value else ""))
    | _ => .error .typeError
  else if op = "==" then .ok (pyEq value target)
  else if op = "!=" then .ok (!pyEq value target)
  else if op = ">" then do
    let l ← leftFloat value
    let r ← toFloat target
    .ok (PyNum.blt r l)
  else if op = "<" then do
    let l ← leftFloat value
    let r ← toFloat target
    .ok (PyNum.blt l r)
  else if op = ">=" then do
    let l ← leftFloat value
    let r ← toFloat target
    .ok (PyNum.ble r l)
  else if op = "<=" then do
    let l ← leftFloat value
    let r ← toFloat target
    .ok (PyNum.ble l r)
  else .ok false

/-- One entry of the `"webhooks"` table of the configuration, with the
defaults `send_webhook` applies at dispatch time left to the accessors. -/
structure WebhookCfg where
  url : Option String := none
  method : Option String := none
  headers : List (String × String) := []
  timeout : Nat := 10

/-- The loaded configuration (`DEFAULT_CONFIG`, lines 30-35, updated from
the config file).  Config-file loading itself is an external collaborator;
the claims quantify over the resulting `Config`. -/
structure Config where
  mempool_url : String := "wss://mempool.space/api/v1/ws"
  webhooks : List (String × WebhookCfg) := []
  triggers : List Rule := []
  reconnect_delay : Nat := 5

def assocFind : List (String × WebhookCfg) → String → Option WebhookCfg
  | [], _ => none
  | (k, w) :: t, key => if k = key then some w else assocFind t key

/-- `self.config.get("webhooks", {}).get(webhook_name)` (line 227); looking
up `None` (a rule without a `"webhook"` key) finds nothing. -/
def lookupWebhook (cfg : Config) : Option String → Option WebhookCfg
  | none => none
  | some n => assocFind cfg.webhooks n

/-- The observable effects of the dispatch path, in program order. -/
inductive Effect where
  /-- `logger.info("[TRIGGER] ... matched! Firing webhook...")` (line 256). -/
  | triggerLog (rule : Option String)
  /-- `logger.warning("Webhook ... not found")` (line 229). -/
  | warnMissing (webhook : Option String)
  /-- The HTTP request `urllib.request.urlopen` issues (lines 238-245):
  webhook name, configured url, upper-cased method, timeout, JSON body. -/
  | httpCall (webhook : Option String) (url : Option String) (method : String)
      (timeout : Nat) (body : JValue)
  /-- `logger.info("[WEBHOOK] ... : status")` on an HTTP response (line 246). -/
  | statusLog (webhook : Option String) (status : Nat)
  /-- `logger.error("[ERROR] Webhook ... failed: ...")` (line 248). -/
  | failLog (webhook : Option String)
  deriving DecidableEq

def upperStr (s : String) : String := String.mk (s.toList.map Char.toUpper)

/-- `MempoolMonitor.send_webhook` (lines 226-248).  `resp` is the HTTP
transport oracle: `some status` if `urlopen` answers, `none` if it raises
(connection error / timeout).  Either way the `try/except` of lines 244-248
swallows the outcome, so the function is total: no dispatch failure
escapes. -/
def send_webhook (cfg : Config) (webhook_name : Option String) (resp : Option Nat)
    (payload : JValue) : List Effect :=
  match lookupWebhook cfg webhook_name with
  | none => [.warnMissing webhook_name]
  | some w =>
    let method := upperStr (w.method.getD "POST")
    .httpCall webhook_name w.url method w.timeout payload ::
      (match resp with
       | some status => [.statusLog webhook_name status]
       | none => [.failLog webhook_name])

/-- Line 262, `int(datetime.now().timestamp())`: the program imports the
MODULE `datetime` (line 9), which has no attribute `now` — the class would be
`datetime.datetime`.  Evaluating the expression therefore raises
`AttributeError` before `send_webhook` is ever called. -/
def datetime_now : Except PyError Int := .error .attributeError

/-- The notification body built on lines 258-263. -/
def mkPayload (event_type : String) (rule_name : Option String) (event_data : JValue)
    (ts : Int) : JValue :=
  .obj (.cons "event" (.str event_type)
       (.cons "rule" (match rule_name with | some s => .str s | none => .null)
       (.cons "data" event_data
       (.cons "timestamp" (.num (PyNum.ofInt ts)) .nil))))

/-- The `for rule in self.config.get("triggers", [])` loop of
`MempoolMonitor.handle_event` (lines 250-265), over an explicit rule list.
Note the `try` of lines 257-265 wraps only the timestamp construction and
the `send_webhook` call — `evaluate_rule` is OUTSIDE it, so an evaluation
error propagates out of the whole loop. -/
def handleRules (cfg : Config) (resp : Option Nat) (event_type : String)
    (event_data : JValue) : List Rule → Except PyError (List Effect)
  | [] => .ok []
  | r :: rs =>
    if r.event ≠ some event_type then handleRules cfg resp event_type event_data rs
    else
      match evaluate_rule r event_data with
      | .error e => .error e
      | .ok false => handleRules cfg resp event_type event_data rs
      | .ok true =>
        let acts := Effect.triggerLog r.name ::
          (match datetime_now with
           | .error _ => []  -- `except Exception: pass` (lines 264-265)
           | .ok ts => send_webhook cfg r.webhook resp (mkPayload event_type r.name event_data ts))
        match handleRules cfg resp event_type event_data rs with
        | .error e => .error e
        | .ok rest => .ok (acts ++ rest)

/-- `MempoolMonitor.handle_event` (lines 250-265). -/
def handle_event (cfg : Config) (resp : Option Nat) (event_type : String)
    (event_data : JValue) : Except PyError (List Effect) :=
  handleRules cfg resp event_type event_data cfg.triggers

/-- `EVENT_MAP` (lines 38-43), as the association list Python iterates over
(dicts iterate in insertion order). -/
def EVENT_MAP : List (String × String) :=
  [("blocks", "block"), ("mempool", "mempool"), ("txs", "tx"), ("transactions", "tx")]

/-- Lines 310-312: a list value is re-wrapped as a one-field dict keyed by
the ORIGINAL message key before being handed to `handle_event`. -/
def wrapListValue (key : String) : JValue → JValue
  | .arr xs => .obj (.cons key (.arr xs) .nil)
  | v => v

/-- The routing loop of `MempoolMonitor.run` (lines 308-313): for each entry
of `EVENT_MAP`, in order, whose key occurs among the top-level fields of the
decoded message, derive one `(event_type, event_data)` pair.  Keys of the
message that are not in `EVENT_MAP` are ignored. -/
def routeEvents (message : JFields) : List (String × JValue) :=
  EVENT_MAP.filterMap (fun ke =>
    match lookupField message ke.1 with
    | none => none
    | some v => some (ke.2, wrapListValue ke.1 v))

/-- Lines 308-313 including the calls to `handle_event`: process one decoded
message; the first exception (necessarily a rule-evaluation error) aborts
the remaining routed events and escapes to the `except` of line 314. -/
def processEvents (cfg : Config) (resp : Option Nat) :
    List (String × JValue) → Except PyError (List Effect)
  | [] => .ok []
  | (ty, ed) :: rest =>
    match handle_event cfg resp ty ed with
    | .error e => .error e
    | .ok acts =>
      match processEvents cfg resp rest with
      | .error e => .error e
      | .ok more => .ok (acts ++ more)

/-- Lines 307-313 assembled: route the decoded message and handle each
derived event in turn. -/
def processMessage (cfg : Config) (resp : Option Nat) (message : JFields) :
    Except PyError (List Effect) :=
  processEvents cfg resp (routeEvents message)

/-- What one iteration of the receive loop does with a decoded message. -/
inductive StepOutcome where
  /-- Processing succeeded; the loop continues with these effects. -/
  | next (effects : List Effect)
  /-- Lines 314-316: the exception is logged and `break` ends the current
  connection. -/
  | broke (e : PyError)
  deriving DecidableEq

/-- One iteration of the inner `while` of `MempoolMonitor.run`
(lines 303-316) applied to one successfully decoded, parsed message. -/
def recvStep (cfg : Config) (resp : Option Nat) (message : JFields) : StepOutcome :=
  match processMessage cfg resp message with
  | .ok acts => .next acts
  | .error e => .broke e

/-- UTF-8 encoding of one unicode code point (`data.encode("utf-8")`,
line 111, character by character). -/
def utf8EncChar (n : Nat) : List Nat :=
  if n < 0x80 then [n]
  else if n < 0x800 then [0xC0 + n / 64, 0x80 + n % 64]
  else if n < 0x10000 then [0xE0 + n / 4096, 0x80 + n / 64 % 64, 0x80 + n % 64]
  else [0xF0 + n / 262144, 0x80 + n / 4096 % 64, 0x80 + n / 64 % 64, 0x80 + n % 64]

/-- `s.encode("utf-8")` as a byte list. -/
def strBytes (s : String) : List Nat :=
  (s.toList.map (fun c => utf8EncChar c.toNat)).flatten

/-- Big-endian bytes of a 64-bit length (`struct.pack("!Q", length)`). -/
def be64 (n : Nat) : List Nat :=
  [n / 2 ^ 56 % 256, n / 2 ^ 48 % 256, n / 2 ^ 40 % 256, n / 2 ^ 32 % 256,
   n / 2 ^ 24 % 256, n / 2 ^ 16 % 256, n / 2 ^ 8 % 256, n % 256]

/-- The frame bytes `SimpleWebSocket.send` writes for a text payload
(lines 106-121): first byte `0x81` (FIN + text opcode), then the minimal
length encoding (inline ≤ 125, `126` + 16-bit, or `127` + 64-bit), then the
payload.  The client-to-server masking the protocol requires is absent, as
in the source. -/
def encodeText (payload : List Nat) : List Nat :=
  let length := payload.length
  if length ≤ 125 then 0x81 :: length :: payload
  else if length ≤ 65535 then 0x81 :: 126 :: (length / 256) :: (length % 256) :: payload
  else 0x81 :: 127 :: (be64 length ++ payload)

/-- `SimpleWebSocket.recv` (lines 123-156) on a socket that will yield
exactly the bytes `stream`.  Returns the string delivered to the caller —
as its UTF-8 bytes, `[]` standing for the empty string — paired with the
`connected` flag after the call.

Faithful oddity of the source: `opcode = header[0] & 0x0f` is at most 15,
yet it is then compared with the full header bytes `0x81` and `0x88`
(lines 149 and 152), so neither the text branch nor the close branch can
ever be taken and control always reaches the final `return ""` with the
connection flag untouched. -/
def recvFrame (connected : Bool) (stream : List Nat) :
    Except PyError (List Nat × Bool) :=
  if connected = false then .error .notConnectedError
  else
    match stream with
    | [] => .ok ([], connected)
    | [_] => .ok ([], connected)  -- `len(header) < 2: return ""`
    | b0 :: b1 :: rest =>
      let opcode := b0 % 16      -- `header[0] & 0x0f`
      let len0 := b1 % 128       -- `header[1] & 0x7f`
      let ext : Except PyError (Nat × List Nat) :=
        if len0 = 126 then
          match rest with
          | x :: y :: r => .ok (x * 256 + y, r)
          | _ => .error .structError  -- unpack of a short read
        else if len0 = 127 then
          match rest with
          | a :: b :: c :: d :: e :: f :: g :: h :: r =>
            .ok (((((((a * 256 + b) * 256 + c) * 256 + d) * 256 + e) * 256 + f)
                  * 256 + g) * 256 + h, r)
          | _ => .error .structError
        else .ok (len0, rest)
      match ext with
      | .error e => .error e
      | .ok (length, body) =>
        -- the accumulation loop of lines 141-146: stops at `length` bytes
        -- or when the socket runs dry
        let payload := body.take length
        if opcode = 0x81 then .ok (payload, connected)      -- dead: opcode ≤ 15
        else if opcode = 0x88 then .ok ([], false)          -- dead: opcode ≤ 15
        else .ok ([], connected)

/-- The state of a `SimpleWebSocket` object (lines 49-52). -/
structure WsState where
  url : String
  connected : Bool

/-- `SimpleWebSocket.__init__` (lines 49-52). -/
def wsInit (url : String) : WsState := { url := url, connected := false }

/-- `SimpleWebSocket._parse_url` (lines 54-62): its first statement,
`from urllib.parse import urlparse, parses`, raises `ImportError` because
`urllib.parse` defines no name `parses`; the rest of the function (which
would also read the undefined variable `parsed`) is unreachable, so parsing
fails for every url before anything else happens. -/
def parse_url (_url : String) :
    Except PyError (String × Nat × String × Bool) :=
  .error .importError

/-- `SimpleWebSocket.connect` (lines 68-104) with the peer modelled by
`handshake_ok`: whether the bytes read on lines 96-98 would contain
`101 Switching Protocols`.  The first statement is `self._parse_url()`;
everything after it — socket dial, handshake, and the
`self.connected = True` of line 104 — runs only if parsing succeeds. -/
def wsConnect (st : WsState) (handshake_ok : Bool) : Except PyError WsState :=
  match parse_url st.url with
  | .error e => .error e
  | .ok _parts =>
    if handshake_ok then .ok { st with connected := true }
    else .error .handshakeError

/-- The mutable state of a `MempoolMonitor` object that the supervisor loop
reads and writes (lines 172-177): the `running` flag, the subscription set
(modelled as a first-occurrence-ordered list of the `rule.get("event")`
values subscribed so far — `None` is subscribable, as in the source), and
the `connected` flag of the current `SimpleWebSocket`. -/
structure MonitorState where
  running : Bool
  subscriptions : List (Option String)
  wsConnected : Bool

/-- `MempoolMonitor.__init__` (lines 172-177): note `self.running = False`. -/
def monitorInit : MonitorState :=
  { running := false, subscriptions := [], wsConnected := false }

/-- The subscription message `json.dumps({"action": "want", "data": [event]})`
of line 271, as the decoded JSON it serialises. -/
def wantMsg (event : Option String) : JValue :=
  .obj (.cons "action" (.str "want")
       (.cons "data" (.arr (.cons (match event with
                                   | some s => .str s
                                   | none => .null) .nil)) .nil))

/-- `MempoolMonitor.subscribe` (lines 267-274): skip if already in
`self.subscriptions`, otherwise send the want-frame and add. -/
def subscribe (subs : List (Option String)) (event : Option String) :
    List (Option String) × List JValue :=
  if subs.contains event then (subs, [])
  else (subs ++ [event], [wantMsg event])

/-- The subscription phase of `MempoolMonitor.connect` (lines 285-291):
derive the distinct `rule.get("event")` values of the configured triggers
(Python's `set`; iteration order is unspecified, modelled as first
occurrence) and `subscribe` each against the CURRENT subscription set —
which `connect` never resets.  Returns the new set and the frames sent. -/
def connectSubscriptions (cfg : Config) (subs : List (Option String)) :
    List (Option String) × List JValue :=
  go subs ((cfg.triggers.map (fun r => r.event)).eraseDups)
where
  go (subs : List (Option String)) :
      List (Option String) → List (Option String) × List JValue
    | [] => (subs, [])
    | e :: rest =>
      let first := subscribe subs e
      let later := go first.1 rest
      (later.1, first.2 ++ later.2)

/-- `MempoolMonitor.connect` (lines 276-291): build a fresh
`SimpleWebSocket` and connect it (which raises for every url, see
`parse_url`); only on success set `self.running = True` (line 282) and run
the subscription phase. -/
def monitorConnect (cfg : Config) (st : MonitorState) (handshake_ok : Bool) :
    Except PyError (MonitorState × List JValue) :=
  match wsConnect (wsInit cfg.mempool_url) handshake_ok with
  | .error e => .error e
  | .ok ws =>
    let subbed := connectSubscriptions cfg st.subscriptions
    .ok ({ running := true, subscriptions := subbed.1, wsConnected := ws.connected },
         subbed.2)

/-- How the outer `while` of `MempoolMonitor.run` ends. -/
inductive RunExit where
  /-- `run` returned on its own; `attempts` connection attempts were made. -/
  | returned (attempts : Nat)
  /-- The loop was still going when the observation budget (`fuel`) ran out. -/
  | stillLooping

def RunExit.addAttempt : RunExit → RunExit
  | .returned n => .returned (n + 1)
  | .stillLooping => .stillLooping

/-- The inner receive loop (lines 303-316) over the successively decoded,
parsed messages the connection would deliver: processes each until one
raises (logged, then `break`).  The `self.running` conjunct of the loop
condition stays `True` throughout since nothing inside the loop clears it
(shutdown is an external signal, out of scope of one call). -/
def receiveLoop (cfg : Config) (resp : Option Nat) :
    List JFields → List Effect × Option PyError
  | [] => ([], none)
  | m :: ms =>
    match processMessage cfg resp m with
    | .error e => ([], some e)
    | .ok acts =>
      let rest := receiveLoop cfg resp ms
      (acts ++ rest.1, rest.2)

/-- The outer `while self.running` loop of `MempoolMonitor.run`
(lines 299-322), observed for `fuel` iterations: the flag is tested first;
if it is down the loop body never runs and `run` returns.  Otherwise one
connection attempt is made; on failure the `except` of lines 318-322 sleeps
`reconnect_delay` seconds and the loop re-tests the flag; on success the
receive loop runs before the outer loop re-tests the flag. -/
def runLoop (cfg : Config) (handshake_ok : Bool) (resp : Option Nat)
    (msgs : List JFields) : Nat → MonitorState → RunExit
  | 0, _ => .stillLooping
  | fuel + 1, st =>
    if st.running then
      match monitorConnect cfg st handshake_ok with
      | .error _e =>
        -- `time.sleep(reconnect_delay)` then retry
        (runLoop cfg handshake_ok resp msgs fuel st).addAttempt
      | .ok (st2, _sent) =>
        let _received := receiveLoop cfg resp msgs
        (runLoop cfg handshake_ok resp msgs fuel st2).addAttempt
    else .returned 0

/-- `MempoolMonitor.run` (lines 293-322) started on a monitor fresh from
`__init__`, observed for `fuel` outer-loop iterations. -/
def runFromInit (cfg : Config) (handshake_ok : Bool) (resp : Option Nat)
    (msgs : List JFields) (fuel : Nat) : RunExit :=
  runLoop cfg handshake_ok resp msgs fuel monitorInit

/-- The `contains` operator exactly as the SPEC words it (spec table in
§4.3), for comparison with `evaluate_rule`: true iff the string form of the
rule target is a substring of the string form of the resolved value, the
resolved value being read as the empty string when it is ABSENT. -/
def containsSpec (rule : Rule) (event_data : JValue) : Bool :=
  let value := get_nested event_data rule.field
  strIn (pyStr rule.value)
        (match value with | .null => "" | v => pyStr v)

/-! ## Concrete inputs used by the claim theorems -/

/-- A trigger with a numeric comparison (`>`). -/
def ruleGtA : Rule :=
  { name := some "r1", event := some "tx", field := "a", operator := ">",
    value := .num ⟨1, 1⟩, webhook := some "hook" }

/-- A trigger with an `exists` comparison. -/
def ruleExistsA : Rule :=
  { name := some "r2", event := some "tx", field := "a", operator := "exists",
    webhook := some "hook" }

/-- An event payload whose field `a` holds the non-numeric string `"abc"`. -/
def dataStrAbc : JValue := .obj (.cons "a" (.str "abc") .nil)

/-- An event payload whose field `a` holds the number `1`. -/
def dataOneA : JValue := .obj (.cons "a" (.num ⟨1, 1⟩) .nil)

/-- An event payload whose field `a` holds the number `0` (present but
falsy). -/
def dataZeroA : JValue := .obj (.cons "a" (.num ⟨0, 1⟩) .nil)

/-- Configuration with a failing numeric rule followed by a second rule for
the same event. -/
def cfgEvalErr : Config := { triggers := [ruleGtA, ruleExistsA] }

/-- Configuration whose single trigger references the configured webhook
`"hook"`. -/
def cfgHookConfigured : Config :=
  { webhooks := [("hook", { url := some "http://example.com/h" })],
    triggers := [ruleExistsA] }

/-- Configuration with two matching rules, both referencing webhooks that do
not exist in the (empty) webhook table. -/
def cfgMissingHook : Config :=
  { webhooks := [],
    triggers := [ruleExistsA, { ruleExistsA with name := some "r3", webhook := some "missing" }] }

/-- A `contains` rule whose target is the string `"0"`. -/
def ruleContainsZero : Rule :=
  { field := "a", operator := "contains", value := .str "0" }

/-- Configuration with one trigger on event category `"blocks"`. -/
def cfgOneTrigger : Config :=
  { triggers := [{ name := some "r", event := some "blocks", operator := "exists" }] }

/-! ## Claim theorems -/

/-- Claim C1 (code bug, evaluated at the failing input `s = "a"`): the claim
says `recv` applied to the bytes `send("a")` writes returns `"a"`; in the
source `recv` masks the opcode to its low nibble (`header[0] & 0x0f`, at most
15) and then compares it with the full bytes `0x81`/`0x88`, so the text
branch is unreachable and the round trip yields the empty string instead,
with the connection flag untouched. -/
theorem text_frame_roundtrip_lost :
    strBytes "a" = [97] ∧
    recvFrame true (encodeText (strBytes "a")) = .ok ([], true) ∧
    ([] : List Nat) ≠ strBytes "a" :=
  ⟨by decide, by decide, by decide⟩

/-- Claim C2 (code bug): the claim says `run` loops until an external
shutdown clears the running flag; in the source `__init__` sets
`self.running = False` and only `connect` (line 282, never reached before
the loop) sets it `True`, so the outer `while self.running` guard fails at
once and `run` returns with zero connection attempts, whatever the
configuration, network behaviour and observation budget. -/
theorem run_returns_immediately_after_init (cfg : Config) (handshake_ok : Bool)
    (resp : Option Nat) (msgs : List JFields) (fuel : Nat) :
    monitorInit.running = false ∧
    runFromInit cfg handshake_ok resp msgs (fuel + 1) = .returned 0 :=
  ⟨rfl, rfl⟩

/-- Claim C3 (confirmed): for every url (any `SimpleWebSocket` state) and
any peer behaviour, `connect` raises `ImportError` out of `_parse_url`
before the handshake, so it never returns a state with `connected = true` —
the only assignment `self.connected = True` (line 104) is unreachable. -/
theorem connect_raises_for_every_url (st : WsState) (handshake_ok : Bool) :
    wsConnect st handshake_ok = .error .importError := rfl

/-- Claim C4 counterexample: with a first rule whose `>` comparison resolves
to the non-coercible string `"abc"`, the evaluation error is NOT caught
per-rule: `handle_event` propagates it (the second rule for the same event
is never evaluated) and the receive loop breaks, ending the connection. -/
theorem eval_error_not_caught_per_rule :
    handle_event cfgEvalErr (some 200) "tx" dataStrAbc = .error .valueError ∧
    recvStep cfgEvalErr (some 200) (.cons "txs" dataStrAbc .nil) = .broke .valueError :=
  ⟨by decide, by decide⟩

/-- Claim C4 as amended: a rule-evaluation error in a matching rule is not
caught per-rule — it propagates out of `handle_event` (skipping every
remaining rule for that event), and the receive loop of `run` catches it,
logs it, and `break`s, ending the current connection (the outer loop then
reconnects). -/
theorem eval_error_ends_connection (cfg : Config) (resp : Option Nat)
    (ty : String) (data : JValue) (r : Rule) (rs : List Rule) (e : PyError)
    (msg : JFields)
    (h1 : cfg.triggers = r :: rs) (h2 : r.event = some ty)
    (h3 : evaluate_rule r data = .error e)
    (h4 : routeEvents msg = [(ty, data)]) :
    handle_event cfg resp ty data = .error e ∧
    recvStep cfg resp msg = .broke e := by
  have he : handle_event cfg resp ty data = .error e := by
    unfold handle_event
    rw [h1]
    unfold handleRules
    simp [h2, h3]
  refine ⟨he, ?_⟩
  unfold recvStep processMessage
  rw [h4]
  unfold processEvents
  rw [he]

/-- Witness for `eval_error_ends_connection` at the concrete failing
configuration. -/
theorem eval_error_ends_connection_witness :
    handle_event cfgEvalErr (some 404) "tx" dataStrAbc = .error .valueError ∧
    recvStep cfgEvalErr (some 404) (.cons "txs" dataStrAbc .nil) = .broke .valueError :=
  eval_error_ends_connection cfgEvalErr (some 404) "tx" dataStrAbc
    ruleGtA [ruleExistsA] .valueError (.cons "txs" dataStrAbc .nil)
    rfl rfl (by decide) (by decide)

/-- Claim C5 (code bug, evaluated at the failing input — a close frame
`[0x88, 0x00]` on a connected socket): the claim says a close frame sets
the connection to the closed state; in the source the masked opcode is `8`,
which the dead comparison `opcode == 0x88` never matches, so `recv` returns
the empty string with `connected` still `true`. -/
theorem close_frame_leaves_connection_open :
    recvFrame true [0x88, 0] = .ok ([], true) := by decide

/-- Claim C6 (code bug, evaluated at a matched rule with a configured
endpoint): the rule matches (the `[TRIGGER]` log is emitted) but the effect
list contains NO http call — `int(datetime.now().timestamp())` raises
`AttributeError` (the module `datetime` has no attribute `now`) inside the
`try`, which `except: pass` swallows, so `send_webhook` is never invoked.
The last conjunct shows the call `send_webhook` WOULD have issued had the
timestamp been built. -/
theorem matched_webhook_call_dropped :
    datetime_now = .error .attributeError ∧
    handle_event cfgHookConfigured (some 200) "tx" dataOneA
      = .ok [.triggerLog (some "r2")] ∧
    send_webhook cfgHookConfigured (some "hook") (some 200)
        (mkPayload "tx" (some "r2") dataOneA 0)
      = [.httpCall (some "hook") (some "http://example.com/h") "POST" 10
           (mkPayload "tx" (some "r2") dataOneA 0),
         .statusLog (some "hook") 200] :=
  ⟨rfl, by decide, by decide⟩

/-- Claim C7 (code bug): the claim says the subscription set is reset on
every new connection so each reconnect re-sends one request per category;
in the source `connect` never clears `self.subscriptions`, so a second
(hypothetically successful) connect sends nothing — and in fact
`monitorConnect` can never even reach the subscription phase, since the
websocket `connect` raises for every url. -/
theorem subscriptions_not_resent_on_reconnect :
    (connectSubscriptions cfgOneTrigger []).2 = [wantMsg (some "blocks")] ∧
    (connectSubscriptions cfgOneTrigger
       (connectSubscriptions cfgOneTrigger []).1).2 = [] ∧
    monitorConnect cfgOneTrigger monitorInit true = .error .importError :=
  ⟨rfl, rfl, rfl⟩

/-- Claim C8 counterexample: the message `{"block": [...]}` produces NO
routed event — `EVENT_MAP` recognises the key `"blocks"`, not `"block"`,
so the claim's required routing of `{"block": [...]}` as category
`"block"` fails. -/
theorem block_key_not_routed :
    routeEvents (.cons "block" (.arr (.cons .null .nil)) .nil) = [] := by decide

/-- Claim C8 as amended: the message `{"blocks": [...]}` (the key actually
in `EVENT_MAP`) is routed as category `"block"` with the list re-wrapped
under its original key, giving payload `{"blocks": [...]}`; and a message
none of whose top-level keys is one of the four mapped keys produces no
routed event. -/
theorem routes_blocks_key_and_drops_unknown (xs : JList) (msg : JFields)
    (h1 : lookupField msg "blocks" = none) (h2 : lookupField msg "mempool" = none)
    (h3 : lookupField msg "txs" = none) (h4 : lookupField msg "transactions" = none) :
    routeEvents (.cons "blocks" (.arr xs) .nil)
      = [("block", .obj (.cons "blocks" (.arr xs) .nil))] ∧
    routeEvents msg = [] := by
  constructor
  · rfl
  · simp [routeEvents, EVENT_MAP, List.filterMap, h1, h2, h3, h4]

/-- Witness for `routes_blocks_key_and_drops_unknown` at a concrete list
and a concrete unrecognised-key message. -/
theorem routes_blocks_key_and_drops_unknown_witness :
    routeEvents (.cons "blocks" (.arr (.cons .null .nil)) .nil)
      = [("block", .obj (.cons "blocks" (.arr (.cons .null .nil)) .nil))] ∧
    routeEvents (.cons "foo" .null .nil) = [] :=
  routes_blocks_key_and_drops_unknown (.cons .null .nil) (.cons "foo" .null .nil)
    (by decide) (by decide) (by decide) (by decide)

/-- Claim C9 counterexample: field `a` resolves to the number `0` — present
but falsy — with target string `"0"`.  The claim (string form of the target
a substring of the string form of the resolved value, empty only when
absent) demands `true`, since `"0"` is a substring of `str(0) = "0"`; the
source tests truthiness, not absence, so it compares against `""` and
returns `false`. -/
theorem contains_on_falsy_value :
    evaluate_rule ruleContainsZero dataZeroA = .ok false ∧
    containsSpec ruleContainsZero dataZeroA = true :=
  ⟨by decide, by decide⟩

/-- Claim C9 as amended: for a rule with operator `contains` and a STRING
target `t`, `evaluate_rule` returns true iff `t` is a substring of the
Python string form of the resolved value when that value is TRUTHY, and of
the empty string when the resolved value is absent or falsy (`0`, `""`,
`False`, `[]`, `{}`). -/
theorem contains_matches_truthy_string_form (rule : Rule) (event_data : JValue)
    (t : String) (h1 : rule.operator = "contains") (h2 : rule.value = .str t) :
    evaluate_rule rule event_data =
      .ok (strIn t (if truthy (get_nested event_data rule.field) then
                      pyStr (get_nested event_data rule.field) else "")) := by
  unfold evaluate_rule
  rw [h1, h2]
  simp

/-- Witness for `contains_matches_truthy_string_form` at the concrete
falsy-value input. -/
theorem contains_matches_truthy_string_form_witness :
    evaluate_rule ruleContainsZero dataZeroA
      = .ok (strIn "0" (if truthy (get_nested dataZeroA ruleContainsZero.field) then
                          pyStr (get_nested dataZeroA ruleContainsZero.field) else "")) :=
  contains_matches_truthy_string_form ruleContainsZero dataZeroA "0" rfl rfl

/-- Claim C10 (code bug, evaluated at an event matching two rules whose
webhooks are missing from the configuration): no exception escapes
`handle_event` and BOTH rules are still evaluated and matched (their
`[TRIGGER]` logs appear, in order), but the misconfiguration is never
reported — the `AttributeError` from the timestamp construction is
swallowed before `send_webhook` (which emits the warning, last conjunct)
can run. -/
theorem missing_endpoint_never_reported :
    handle_event cfgMissingHook (some 200) "tx" dataOneA
      = .ok [.triggerLog (some "r2"), .triggerLog (some "r3")] ∧
    send_webhook cfgMissingHook (some "missing") (some 200) .null
      = [.warnMissing (some "missing")] :=
  ⟨by decide, by decide⟩
